import Mathlib

/-!
Verification of the autodj-headless Generate subsystem.

Shallow embedding of `src/autodj/generate/selector.py`,
`src/autodj/generate/energy.py` and `src/autodj/generate/playlist.py`.

Numeric track metadata (durations, BPM, energies, loudness) is modelled
with exact rationals; the real-valued square root used by the energy
variance score is modelled with `Real.sqrt`.  Optional Python values
(`None` / missing dict keys) are modelled with `Option`.  The metadata
store's `get_recent_usage` responses are modelled as an oracle
`recent : String → Bool`, and `random.choice` in the Phonemius seed
selection as an explicit choice parameter `choose`.
-/

/-- Track metadata dict, as consumed by the Generate subsystem.
Fields the code reads with `track.get(...)` are `Option`-valued. -/
structure Track where
  id : String
  file_path : Option String
  duration_seconds : Option ℚ
  bpm : Option ℚ
  key : Option String
  energy : Option ℚ
  cue_in_energy : Option ℚ
  cue_out_energy : Option ℚ
  loudness_db : Option ℚ
deriving DecidableEq, Repr

/-- Embeds `SelectionConstraints.__init__` (selector.py lines 24-32): the four
constraint fields read from `config["constraints"]`, after defaulting. -/
structure SelectionConstraints where
  bpm_tolerance : ℚ
  energy_window : ℕ
  min_duration : ℚ
  max_repeat_decay : ℕ
deriving DecidableEq, Repr

/-- Decimal digit value of a character, `none` for a non-digit. -/
def charDigit (c : Char) : Option ℕ :=
  if c.isDigit then some (c.toNat - 48) else none

/-- Non-negative decimal numeral parsing, the relevant fragment of
Python `int(...)` (which additionally accepts signs and surrounding
whitespace; Camelot key numbers are plain numerals). -/
def digitsToNat? (l : List Char) : Option ℕ :=
  if l.isEmpty then none
  else l.foldl (fun acc c => acc.bind fun n => (charDigit c).map fun d => n * 10 + d)
    (some 0)

/-- Model of Python `int(key[:-1]), key[-1]` parsing in
`MerlinGreedySelector._camelot_compatible` (selector.py lines 79-80):
all characters but the last must form an integer numeral; the last
character is the mode letter.  A parse failure corresponds to the
Python `ValueError`/`IndexError` path. -/
def parseCamelot (s : String) : Option (ℕ × Char) :=
  match digitsToNat? s.data.dropLast, s.data.getLast? with
  | some n, some m => some (n, m)
  | _, _ => none

/-- Embeds `MerlinGreedySelector._camelot_compatible` (selector.py lines 56-99).
`none` models Python `None`; `"unknown"` is the sentinel; a malformed
key (parse failure) is treated as compatible. -/
def camelotCompatible (key1 key2 : Option String) : Bool :=
  match key1, key2 with
  | none, _ => true
  | _, none => true
  | some k1, some k2 =>
    if k1 == "unknown" || k2 == "unknown" then true
    else
      match parseCamelot k1, parseCamelot k2 with
      | some (n1, m1), some (n2, m2) =>
        if m1 != m2 then n1 == n2
        else if n1 == n2 then true
        else (n1 % 12 + 1 == n2 % 12) || (n2 % 12 + 1 == n1 % 12)
      | _, _ => true

/-- Embeds `MerlinGreedySelector._bpm_compatible` (selector.py lines 101-120). -/
def bpm_compatible (bpm1 bpm2 : Option ℚ) (tolerance_percent : ℚ) : Bool :=
  match bpm1, bpm2 with
  | none, _ => true
  | _, none => true
  | some b1, some b2 =>
    if |b2 - b1| ≤ b1 * (tolerance_percent / 100) then true else false

/-- Python `max(0.0, min(1.0, x))` clamp used throughout energy.py. -/
def clamp01 (x : ℚ) : ℚ := max 0 (min 1 x)

/-- Embeds `estimate_track_energy` (energy.py lines 18-70): priority-ordered
fallback chain energy → cue_in_energy → cue_out_energy → loudness_db →
bpm → neutral 0.5. -/
def estimate_track_energy (t : Track) : ℚ :=
  match t.energy with
  | some e => clamp01 e
  | none =>
    match t.cue_in_energy with
    | some e => clamp01 e
    | none =>
      match t.cue_out_energy with
      | some e => clamp01 e
      | none =>
        match t.loudness_db with
        | some db => clamp01 ((db + 40) / 40)
        | none =>
          match t.bpm with
          | some b => clamp01 ((b - 80) / 100)
          | none => 1/2

/-- Embeds `compute_energy_distance` (energy.py lines 73-84). -/
def compute_energy_distance (energy1 energy2 : ℚ) : ℚ := |energy1 - energy2|

/-- A track with every optional field absent. -/
def emptyTrack : Track :=
  { id := "", file_path := none, duration_seconds := none, bpm := none,
    key := none, energy := none, cue_in_energy := none,
    cue_out_energy := none, loudness_db := none }

/-- Python dict lookup `{t.get("id"): t for t in library}[tid]`: the
comprehension keeps the LAST occurrence of a duplicated id, so lookup
is first-match on the reversed list.  `none` models a missing key. -/
def dictLookup (library : List Track) (tid : String) : Option Track :=
  library.reverse.find? fun t => t.id == tid

/-- Embeds `MerlinGreedySelector.choose_next` (selector.py lines 136-216):
filter candidates (already used, recently used, BPM, key) preserving
order, then pick the first survivor.  The Python method also inserts
the chosen id into `used_in_set`; in this functional model the caller
(`greedyLoop`) performs that insertion, and the returned `hints` dict,
used only for logging, is omitted. -/
def chooseNext (recent : String → Bool) (c : SelectionConstraints)
    (used : List String) (current : Track) (candidates : List Track) :
    Option String :=
  match candidates.filter fun cand =>
    !(used.contains cand.id) && !(recent cand.id) &&
    bpm_compatible current.bpm cand.bpm c.bpm_tolerance &&
    camelotCompatible current.key cand.key with
  | [] => none
  | chosen :: _ => some chosen.id

/-- The greedy loop of `MerlinGreedySelector.build_playlist`
(selector.py lines 260-290), with an explicit fuel parameter for
structural recursion.  Each iteration checks
`total_duration < target and len(playlist) < max_tracks`, filters the
library down to unused tracks meeting the duration floor, asks
`choose_next` for a successor, and appends it.  The `dictLookup = none`
branch is unreachable (the chosen id always comes from the library;
Python would raise `KeyError` there) and returns the playlist so far. -/
def greedyLoop (recent : String → Bool) (c : SelectionConstraints)
    (library : List Track) (target : ℚ) (maxTracks : ℕ) :
    ℕ → List String → List String → ℚ → Track → List String
  | 0, _, playlist, _, _ => playlist
  | fuel + 1, used, playlist, total, current =>
    if total < target ∧ playlist.length < maxTracks then
      match chooseNext recent c used current
        (library.filter fun t =>
          !(used.contains t.id) &&
          decide (c.min_duration ≤ t.duration_seconds.getD 0)) with
      | none => playlist
      | some nextId =>
        match dictLookup library nextId with
        | none => playlist
        | some next =>
          greedyLoop recent c library target maxTracks fuel
            (used ++ [nextId]) (playlist ++ [nextId])
            (total + next.duration_seconds.getD 0) next
    else playlist

/-- Embeds `MerlinGreedySelector.build_playlist` (selector.py lines 218-297)
with explicit fuel for the greedy loop: fail if the seed id is not in
the library dict, otherwise start from the seed (marked used) and run
the loop.  Fuel `maxTracks` (see `MerlinBuildPlaylist`) always
suffices, because every iteration requires `playlist.length <
maxTracks` and lengthens the playlist. -/
def MerlinBuildPlaylistFuel (fuel : ℕ) (recent : String → Bool)
    (c : SelectionConstraints) (library : List Track)
    (seedTrackId : String) (targetDurationMinutes : ℤ) (maxTracks : ℕ) :
    Option (List String) :=
  match dictLookup library seedTrackId with
  | none => none
  | some seedTrack =>
    some (greedyLoop recent c library
      ((targetDurationMinutes * 60 : ℤ) : ℚ) maxTracks fuel
      [seedTrackId] [seedTrackId] (seedTrack.duration_seconds.getD 0)
      seedTrack)

/-- Embeds `MerlinGreedySelector.build_playlist`: a fresh selector
(`used_in_set` empty) building from the given seed. -/
def MerlinBuildPlaylist (recent : String → Bool)
    (c : SelectionConstraints) (library : List Track)
    (seedTrackId : String) (targetDurationMinutes : ℤ) (maxTracks : ℕ) :
    Option (List String) :=
  MerlinBuildPlaylistFuel maxTracks recent c library seedTrackId
    targetDurationMinutes maxTracks

/-- The random-seed path of `_select_seed_track` (playlist.py lines
116-127), shared by the no-explicit-seed case and the absent-seed
fallback: draw (via `choose`, modelling `random.choice`) from the
tracks meeting the duration floor, `none` if there are none. -/
def randomSeedFallback (choose : List Track → Option Track)
    (c : SelectionConstraints) (library : List Track) : Option String :=
  match library.filter
    (fun t => decide (c.min_duration ≤ t.duration_seconds.getD 0)) with
  | [] => none
  | cand :: rest => (choose (cand :: rest)).map fun t => t.id

/-- Embeds `ArchwizardPhonemius._select_seed_track` (playlist.py lines
93-127).  `choose` models `random.choice` applied to the non-empty
candidate list.  An explicit seed present in the library is returned
as-is; an absent explicit seed logs a warning and FALLS THROUGH to the
random path, which draws from the tracks meeting the duration floor.
(Python tests `if seed_track_id:` by truthiness, so an empty-string
seed also takes the random path; ids are non-empty here.) -/
def selectSeedTrack (choose : List Track → Option Track)
    (c : SelectionConstraints) (library : List Track)
    (seedTrackId : Option String) : Option String :=
  if library.isEmpty then none
  else
    match seedTrackId with
    | some sid =>
      if library.any fun t => t.id == sid then some sid
      else randomSeedFallback choose c library
    | none => randomSeedFallback choose c library

/-- Embeds `TransitionPlan.__init__` / `to_dict` (playlist.py lines 21-70). -/
structure TransitionPlan where
  track_index : ℕ
  track_id : String
  entry_cue : String
  hold_duration_bars : ℕ
  target_bpm : Option ℚ
  exit_cue : String
  mix_out_seconds : ℚ
  effect : String
  next_track_id : Option String
deriving DecidableEq, Repr

/-- Embeds `ArchwizardPhonemius._select_transition_effect` (playlist.py lines
171-194): every branch currently returns `"smart_crossfade"`. -/
def selectTransitionEffect (currentKey : Option String)
    (nextTrackId : Option String) (library : List Track) : String :=
  match nextTrackId with
  | none => "smart_crossfade"
  | some nid =>
    let nextKey := (dictLookup library nid).bind fun t => t.key
    if currentKey == nextKey then "smart_crossfade" else "smart_crossfade"

/-- Embeds `ArchwizardPhonemius._plan_transitions` (playlist.py lines
129-169).  `cfgCrossfade` is `config.get("render", {}).get
("crossfade_duration_seconds", 4.0)`: the raw configured value, with
`none` modelling an absent key (defaulted to `4`).  No clamping is
performed. -/
def planTransitions (cfgCrossfade : Option ℚ) (trackIds : List String)
    (library : List Track) : List TransitionPlan :=
  trackIds.enum.map fun p =>
    let track? := dictLookup library p.2
    let nextId := trackIds.get? (p.1 + 1)
    { track_index := p.1
      track_id := p.2
      entry_cue := "cue_in"
      hold_duration_bars := 16
      target_bpm := track?.bind fun t => t.bpm
      exit_cue := "cue_out"
      mix_out_seconds := cfgCrossfade.getD 4
      effect := selectTransitionEffect (track?.bind fun t => t.key) nextId library
      next_track_id := nextId }

/-- Embeds `ArchwizardPhonemius.build_playlist` (playlist.py lines 196-240):
select a seed (falling back to random when the explicit seed is
absent), run the Merlin selector with the default `max_tracks = 90`,
reject results with fewer than 2 tracks, then plan transitions.
Returning `none` models every failure path. -/
def PhonemiusBuildPlaylist (choose : List Track → Option Track)
    (recent : String → Bool) (c : SelectionConstraints)
    (cfgCrossfade : Option ℚ) (library : List Track)
    (targetDurationMinutes : ℤ) (seedTrackId : Option String) :
    Option (List String × List TransitionPlan) :=
  match selectSeedTrack choose c library seedTrackId with
  | none => none
  | some seedId =>
    match MerlinBuildPlaylist recent c library seedId
      targetDurationMinutes 90 with
    | none => none
    | some trackIds =>
      if trackIds.length < 2 then none
      else some (trackIds, planTransitions cfgCrossfade trackIds library)

/-- The default constraints (config defaults: 4% BPM tolerance, window
3, 120 s duration floor, 168 h repeat decay). -/
def cons0 : SelectionConstraints :=
  { bpm_tolerance := 4, energy_window := 3, min_duration := 120,
    max_repeat_decay := 168 }

/-- Usage oracle reporting no recent usage for any track. -/
def noRecent : String → Bool := fun _ => false

/-- A deterministic stand-in for `random.choice`: pick the head. -/
def pickHead : List Track → Option Track := List.head?

/-- A second stand-in for `random.choice`: pick the last element. -/
def pickLast : List Track → Option Track := List.getLast?

def trackA : Track :=
  { emptyTrack with
    id := "a"
    duration_seconds := some 240
    key := some "8B" }

def trackB : Track :=
  { emptyTrack with
    id := "b"
    duration_seconds := some 240
    key := some "8B" }

/-- A seed track below the 120 s duration floor. -/
def shortSeed : Track :=
  { emptyTrack with id := "s", duration_seconds := some 10 }

def longNext : Track :=
  { emptyTrack with id := "t", duration_seconds := some 240 }

lemma clamp01_nonneg (x : ℚ) : 0 ≤ clamp01 x := le_max_left 0 _

lemma clamp01_le_one (x : ℚ) : clamp01 x ≤ 1 := by
  simp only [clamp01, max_le_iff]
  exact ⟨zero_le_one, min_le_left 1 x⟩

/-- Claim C1 evaluation: the Camelot compatibility check on the boundary
pairs.  `(12B, 1B)` and `(8B, 10B)` behave as the claim states, but the
adjacent pair `(11B, 12B)` — which the claim (and the function's own
docstring, "Adjacent on the wheel") requires to be compatible — is
rejected, because `12 % 12 = 0` breaks the wrap-around adjacency test. -/
theorem camelot_wrap_bug_eval :
    camelotCompatible (some "12B") (some "1B") = true ∧
    camelotCompatible (some "8B") (some "10B") = false ∧
    camelotCompatible (some "11B") (some "12B") = false ∧
    camelotCompatible (some "12B") (some "11B") = false := by
  refine ⟨?_, ?_, ?_, ?_⟩ <;> rfl

/-- Claim C5: with both BPMs present, compatibility holds exactly when
`|bpm₂ − bpm₁| ≤ bpm₁ · tolerance/100`, with the bound inclusive
(at 126 BPM and 4% tolerance, 121 and 131 pass while 120 and 132 fail;
at 100 BPM and 4%, 104 passes exactly at the bound); a missing BPM on
either side is always compatible. -/
theorem bpm_compatible_spec :
    (∀ b1 b2 tol : ℚ,
      bpm_compatible (some b1) (some b2) tol = true ↔
        |b2 - b1| ≤ b1 * tol / 100) ∧
    bpm_compatible (some 126) (some 121) 4 = true ∧
    bpm_compatible (some 126) (some 131) 4 = true ∧
    bpm_compatible (some 126) (some 120) 4 = false ∧
    bpm_compatible (some 126) (some 132) 4 = false ∧
    bpm_compatible (some 100) (some 104) 4 = true ∧
    (∀ b tol : ℚ, bpm_compatible none (some b) tol = true ∧
      bpm_compatible (some b) none tol = true) := by
  refine ⟨?_, ?_, ?_, ?_, ?_, ?_, fun b tol => ⟨rfl, rfl⟩⟩
  · intro b1 b2 tol
    simp only [bpm_compatible]
    rw [mul_div_assoc]
    split
    · simp only [true_iff]; assumption
    · simp only [Bool.false_eq_true, false_iff]; assumption
  · simp only [bpm_compatible]; rw [if_pos (by norm_num)]
  · simp only [bpm_compatible]; rw [if_pos (by norm_num)]
  · simp only [bpm_compatible]; rw [if_neg (by norm_num)]
  · simp only [bpm_compatible]; rw [if_neg (by norm_num)]
  · simp only [bpm_compatible]; rw [if_pos (by norm_num)]

/-- Claim C8: the estimated energy always lies in `[0,1]`; each stage of
the fallback chain computes its documented clamped value (explicit
energy wins over everything, then `cue_in_energy`, `cue_out_energy`,
the linear `[-40,0] dB` loudness map, the linear `[80,180]` BPM map);
a track with only `bpm = 80` yields `0`, only `bpm = 180` yields `1`,
and a track with no descriptor fields yields `0.5`. -/
theorem estimate_track_energy_spec :
    (∀ t : Track, 0 ≤ estimate_track_energy t ∧ estimate_track_energy t ≤ 1) ∧
    (∀ (t : Track) (e : ℚ),
      estimate_track_energy { t with energy := some e } = clamp01 e) ∧
    (∀ (t : Track) (e : ℚ),
      estimate_track_energy { t with energy := none, cue_in_energy := some e }
        = clamp01 e) ∧
    (∀ (t : Track) (e : ℚ),
      estimate_track_energy
        { t with energy := none, cue_in_energy := none,
                 cue_out_energy := some e } = clamp01 e) ∧
    (∀ (t : Track) (db : ℚ),
      estimate_track_energy
        { t with energy := none, cue_in_energy := none,
                 cue_out_energy := none, loudness_db := some db }
        = clamp01 ((db + 40) / 40)) ∧
    (∀ (t : Track) (b : ℚ),
      estimate_track_energy
        { t with energy := none, cue_in_energy := none,
                 cue_out_energy := none, loudness_db := none,
                 bpm := some b } = clamp01 ((b - 80) / 100)) ∧
    estimate_track_energy { emptyTrack with bpm := some 80 } = 0 ∧
    estimate_track_energy { emptyTrack with bpm := some 180 } = 1 ∧
    estimate_track_energy emptyTrack = 1/2 := by
  refine ⟨?_, fun t e => rfl, fun t e => rfl, fun t e => rfl, fun t db => rfl,
    fun t b => rfl,
    by norm_num [estimate_track_energy, emptyTrack, clamp01, min_def, max_def],
    by norm_num [estimate_track_energy, emptyTrack, clamp01, min_def, max_def],
    rfl⟩
  intro t
  rcases t with ⟨id, fp, dur, bpm, key, en, ci, co, ld⟩
  rcases en with _ | e
  · rcases ci with _ | e
    · rcases co with _ | e
      · rcases ld with _ | db
        · rcases bpm with _ | b
          · exact ⟨by norm_num [estimate_track_energy], by norm_num [estimate_track_energy]⟩
          · exact ⟨clamp01_nonneg _, clamp01_le_one _⟩
        · exact ⟨clamp01_nonneg _, clamp01_le_one _⟩
      · exact ⟨clamp01_nonneg _, clamp01_le_one _⟩
    · exact ⟨clamp01_nonneg _, clamp01_le_one _⟩
  · exact ⟨clamp01_nonneg _, clamp01_le_one _⟩

lemma chooseNext_spec {recent : String → Bool} {c : SelectionConstraints}
    {used : List String} {current : Track} {candidates : List Track}
    {i : String} (h : chooseNext recent c used current candidates = some i) :
    ∃ t, t ∈ candidates ∧ t.id = i ∧ used.contains t.id = false := by
  unfold chooseNext at h
  rcases hf : candidates.filter fun cand =>
      !(used.contains cand.id) && !(recent cand.id) &&
      bpm_compatible current.bpm cand.bpm c.bpm_tolerance &&
      camelotCompatible current.key cand.key with _ | ⟨chosen, rest⟩
  · rw [hf] at h; exact absurd h (by simp)
  · rw [hf] at h
    simp only [Option.some.injEq] at h
    have hmem := hf ▸ List.mem_cons_self chosen rest
    rw [List.mem_filter] at hmem
    refine ⟨chosen, hmem.1, h, ?_⟩
    have := hmem.2
    simp only [Bool.and_eq_true, Bool.not_eq_true'] at this
    exact this.1.1.1

lemma greedyLoop_suffix (recent : String → Bool) (c : SelectionConstraints)
    (library : List Track) (target : ℚ) (maxTracks : ℕ) :
    ∀ (fuel : ℕ) (used playlist : List String) (total : ℚ) (current : Track),
      ∃ s, greedyLoop recent c library target maxTracks fuel used playlist
        total current = playlist ++ s := by
  intro fuel
  induction fuel with
  | zero => intro used playlist total current; exact ⟨[], by simp [greedyLoop]⟩
  | succ fuel ih =>
    intro used playlist total current
    simp only [greedyLoop]
    split
    · split
      · exact ⟨[], by simp⟩
      · split
        · exact ⟨[], by simp⟩
        · rename_i _ nextId _ _ next _
          obtain ⟨s, hs⟩ := ih (used ++ [nextId]) (playlist ++ [nextId])
            (total + next.duration_seconds.getD 0) next
          exact ⟨nextId :: s, by rw [hs]; simp⟩
    · exact ⟨[], by simp⟩

lemma greedyLoop_mem (recent : String → Bool) (c : SelectionConstraints)
    (library : List Track) (target : ℚ) (maxTracks : ℕ) :
    ∀ (fuel : ℕ) (used playlist : List String) (total : ℚ) (current : Track)
      (x : String),
      x ∈ greedyLoop recent c library target maxTracks fuel used playlist
        total current →
      x ∈ playlist ∨ ∃ t, t ∈ library ∧ t.id = x ∧
        c.min_duration ≤ t.duration_seconds.getD 0 := by
  intro fuel
  induction fuel with
  | zero =>
    intro used playlist total current x hx
    exact Or.inl (by simpa [greedyLoop] using hx)
  | succ fuel ih =>
    intro used playlist total current x hx
    simp only [greedyLoop] at hx
    split at hx
    · split at hx
      · exact Or.inl hx
      · split at hx
        · exact Or.inl hx
        · rename_i _ nextId hc _ next _
          rcases ih _ _ _ _ _ hx with hmem | hlib
          · rcases List.mem_append.1 hmem with hpl | hnew
            · exact Or.inl hpl
            · right
              obtain ⟨t, ht, hid, _⟩ := chooseNext_spec hc
              rw [List.mem_filter] at ht
              refine ⟨t, ht.1, ?_, ?_⟩
              · rw [List.mem_singleton] at hnew
                rw [hid, hnew]
              · have := ht.2
                simp only [Bool.and_eq_true, decide_eq_true_eq] at this
                exact this.2
          · exact Or.inr hlib
    · exact Or.inl hx

lemma greedyLoop_nodup (recent : String → Bool) (c : SelectionConstraints)
    (library : List Track) (target : ℚ) (maxTracks : ℕ) :
    ∀ (fuel : ℕ) (used playlist : List String) (total : ℚ) (current : Track),
      playlist.Nodup → (∀ x ∈ playlist, used.contains x = true) →
      (greedyLoop recent c library target maxTracks fuel used playlist
        total current).Nodup := by
  intro fuel
  induction fuel with
  | zero => intro used playlist total current hnd _; simpa [greedyLoop] using hnd
  | succ fuel ih =>
    intro used playlist total current hnd hus
    simp only [greedyLoop]
    split
    · split
      · exact hnd
      · split
        · exact hnd
        · rename_i _ nextId hc _ next _
          obtain ⟨t, _, hid, hnu⟩ := chooseNext_spec hc
          have hnotmem : nextId ∉ playlist := by
            intro hmem
            have := hus nextId hmem
            rw [hid] at hnu
            rw [this] at hnu
            exact Bool.true_eq_false.mp hnu
          refine ih (used ++ [nextId]) (playlist ++ [nextId]) _ _ ?_ ?_
          · rw [List.nodup_append]
            refine ⟨hnd, List.nodup_singleton _, ?_⟩
            intro a ha hb
            rw [List.mem_singleton] at hb
            exact hnotmem (hb ▸ ha)
          · intro x hx
            rcases List.mem_append.1 hx with hx | hx
            · have := hus x hx
              rw [List.elem_iff] at this ⊢
              exact List.mem_append_left _ this
            · rw [List.mem_singleton] at hx
              subst hx
              rw [List.elem_iff]
              exact List.mem_append_right _ (List.mem_singleton.2 rfl)
    · exact hnd

lemma greedyLoop_length_le (recent : String → Bool) (c : SelectionConstraints)
    (library : List Track) (target : ℚ) (maxTracks : ℕ) :
    ∀ (fuel : ℕ) (used playlist : List String) (total : ℚ) (current : Track),
      (greedyLoop recent c library target maxTracks fuel used playlist
        total current).length ≤ max playlist.length maxTracks := by
  intro fuel
  induction fuel with
  | zero =>
    intro used playlist total current
    simp [greedyLoop, le_max_left]
  | succ fuel ih =>
    intro used playlist total current
    simp only [greedyLoop]
    split
    · split
      · exact le_max_left _ _
      · split
        · exact le_max_left _ _
        · rename_i hguard _ nextId _ _ next _
          have hlt : playlist.length < maxTracks := hguard.2
          refine (ih (used ++ [nextId]) (playlist ++ [nextId])
            (total + next.duration_seconds.getD 0) next).trans ?_
          simp only [List.length_append, List.length_singleton]
          omega
    · exact le_max_left _ _

lemma greedyLoop_of_full (recent : String → Bool) (c : SelectionConstraints)
    (library : List Track) (target : ℚ) (maxTracks : ℕ)
    (fuel : ℕ) (used playlist : List String) (total : ℚ) (current : Track)
    (h : maxTracks ≤ playlist.length) :
    greedyLoop recent c library target maxTracks fuel used playlist
      total current = playlist := by
  cases fuel with
  | zero => simp [greedyLoop]
  | succ fuel =>
    simp only [greedyLoop]
    rw [if_neg]
    intro hguard
    omega

lemma greedyLoop_fuel_stable (recent : String → Bool)
    (c : SelectionConstraints) (library : List Track) (target : ℚ)
    (maxTracks : ℕ) :
    ∀ (fuel₁ fuel₂ : ℕ) (used playlist : List String) (total : ℚ)
      (current : Track),
      maxTracks ≤ fuel₁ + playlist.length →
      maxTracks ≤ fuel₂ + playlist.length →
      greedyLoop recent c library target maxTracks fuel₁ used playlist
        total current =
      greedyLoop recent c library target maxTracks fuel₂ used playlist
        total current := by
  intro fuel₁
  induction fuel₁ with
  | zero =>
    intro fuel₂ used playlist total current h1 h2
    rw [greedyLoop_of_full recent c library target maxTracks 0 used playlist
      total current (by omega)]
    rw [greedyLoop_of_full recent c library target maxTracks fuel₂ used
      playlist total current (by omega)]
  | succ fuel ih =>
    intro fuel₂ used playlist total current h1 h2
    cases fuel₂ with
    | zero =>
      rw [greedyLoop_of_full recent c library target maxTracks (fuel + 1) used
        playlist total current (by omega)]
      rw [greedyLoop_of_full recent c library target maxTracks 0 used playlist
        total current (by omega)]
    | succ fuel₂ =>
      simp only [greedyLoop]
      split
      · split
        · rfl
        · split
          · rfl
          · rename_i _ nextId _ _ next _
            exact ih fuel₂ (used ++ [nextId]) (playlist ++ [nextId])
              (total + next.duration_seconds.getD 0) next
              (by simp only [List.length_append, List.length_singleton]; omega)
              (by simp only [List.length_append, List.length_singleton]; omega)
      · rfl

lemma dictLookup_some {library : List Track} {tid : String} {t : Track}
    (h : dictLookup library tid = some t) : t ∈ library ∧ t.id = tid := by
  unfold dictLookup at h
  refine ⟨List.mem_reverse.1 (List.mem_of_find?_eq_some h), ?_⟩
  have := List.find?_some h
  exact beq_iff_eq.1 this

lemma dictLookup_eq_none {library : List Track} {tid : String}
    (h : ∀ t ∈ library, (t.id == tid) = false) :
    dictLookup library tid = none := by
  unfold dictLookup
  rw [List.find?_eq_none]
  intro t ht
  rw [h t (List.mem_reverse.1 ht)]
  simp

/-- Claim C2 (amended): in every playlist returned by a successful
`MerlinGreedySelector.build_playlist` call, the first element is the
seed and every OTHER element belongs to a library track meeting the
`min_track_duration_seconds` floor.  The seed itself is only checked
for presence in the library, never for duration (see the
counterexample): a seed below the floor is accepted and returned. -/
theorem merlin_duration_floor (recent : String → Bool)
    (c : SelectionConstraints) (library : List Track) (seed : String)
    (tmin : ℤ) (maxT : ℕ) (l : List String)
    (h : MerlinBuildPlaylist recent c library seed tmin maxT = some l) :
    l.head? = some seed ∧
    ∀ x ∈ l, x = seed ∨ ∃ t, t ∈ library ∧ t.id = x ∧
      c.min_duration ≤ t.duration_seconds.getD 0 := by
  unfold MerlinBuildPlaylist MerlinBuildPlaylistFuel at h
  split at h
  · simp at h
  · rename_i seedTrack hd
    simp only [Option.some.injEq] at h
    constructor
    · obtain ⟨s, hs⟩ := greedyLoop_suffix recent c library
        ((tmin * 60 : ℤ) : ℚ) maxT maxT [seed] [seed]
        (seedTrack.duration_seconds.getD 0) seedTrack
      rw [← h, hs]
      rfl
    · intro x hx
      rw [← h] at hx
      rcases greedyLoop_mem recent c library ((tmin * 60 : ℤ) : ℚ) maxT maxT
          [seed] [seed] (seedTrack.duration_seconds.getD 0) seedTrack x hx with
        hpl | ⟨t, ht, hid, hdur⟩
      · left; simpa using hpl
      · right; exact ⟨t, ht, hid, hdur⟩

/-- Claim C2 counterexample: the claim as stated is false.  A library
whose seed track `"s"` lasts 10 s (far below the 120 s floor) still
yields the successful playlist `["s", "t"]` containing the short seed;
the call does not fail. -/
theorem merlin_short_seed_counterexample :
    MerlinBuildPlaylist noRecent cons0 [shortSeed, longNext] "s" 1 90
      = some ["s", "t"] ∧
    "s" ∈ (["s", "t"] : List String) ∧
    dictLookup [shortSeed, longNext] "s" = some shortSeed ∧
    ¬ (cons0.min_duration ≤ shortSeed.duration_seconds.getD 0) := by
  refine ⟨by with_unfolding_all decide, by decide, by decide, by decide⟩

/-- Witness for `merlin_duration_floor` at a concrete input. -/
theorem merlin_duration_floor_witness :
    MerlinBuildPlaylist noRecent cons0 [trackA, trackB] "a" 10 90
      = some ["a", "b"] ∧
    (["a", "b"] : List String).head? = some "a" :=
  ⟨by with_unfolding_all decide,
    (merlin_duration_floor noRecent cons0 [trackA, trackB] "a" 10 90
      ["a", "b"] (by with_unfolding_all decide)).1⟩

/-- Claim C3: whenever the orchestrated generation
(`ArchwizardPhonemius.build_playlist`) succeeds, the playlist has at
least 2 tracks; and whenever the Merlin selector hands back fewer than
2 tracks, the generation call fails (returns `none`, the model of the
`InsufficientCandidates` failure) instead of returning the short
playlist. -/
theorem phonemius_min_length :
    (∀ (choose : List Track → Option Track) (recent : String → Bool)
      (c : SelectionConstraints) (cfg : Option ℚ) (library : List Track)
      (tmin : ℤ) (seed : Option String) (ids : List String)
      (trans : List TransitionPlan),
      PhonemiusBuildPlaylist choose recent c cfg library tmin seed
        = some (ids, trans) → 2 ≤ ids.length) ∧
    (∀ (choose : List Track → Option Track) (recent : String → Bool)
      (c : SelectionConstraints) (cfg : Option ℚ) (library : List Track)
      (tmin : ℤ) (seed : Option String) (sid : String) (ids : List String),
      selectSeedTrack choose c library seed = some sid →
      MerlinBuildPlaylist recent c library sid tmin 90 = some ids →
      ids.length < 2 →
      PhonemiusBuildPlaylist choose recent c cfg library tmin seed = none) := by
  constructor
  · intro choose recent c cfg library tmin seed ids trans h
    unfold PhonemiusBuildPlaylist at h
    split at h
    · simp at h
    · split at h
      · simp at h
      · rename_i ids' hm
        split at h
        · simp at h
        · rename_i hlen
          simp only [Option.some.injEq, Prod.mk.injEq] at h
          rw [← h.1]
          omega
  · intro choose recent c cfg library tmin seed sid ids h1 h2 h3
    unfold PhonemiusBuildPlaylist
    simp only [h1]
    simp only [h2]
    rw [if_pos h3]

/-- The transition plan emitted for `["a", "b"]` with the default 4 s
crossfade, used as concrete data in witnesses. -/
def demoPlans : List TransitionPlan :=
  planTransitions (some 4) ["a", "b"] [trackA, trackB]

/-- Witness for `phonemius_min_length` at a concrete input. -/
theorem phonemius_min_length_witness :
    PhonemiusBuildPlaylist pickHead noRecent cons0 (some 4)
      [trackA, trackB] 10 (some "a") = some (["a", "b"], demoPlans) ∧
    2 ≤ (["a", "b"] : List String).length :=
  ⟨by with_unfolding_all decide,
    phonemius_min_length.1 pickHead noRecent cons0 (some 4) [trackA, trackB]
      10 (some "a") ["a", "b"] demoPlans (by with_unfolding_all decide)⟩

/-- Claim C4 counterexample: the claim as stated is false.  With the
seed id `"zzz"` absent from the library, the orchestrated generation
call does NOT fail: `_select_seed_track` falls back to a random
eligible seed (modelled by the explicit `pickHead` choice) and the call
returns the playlist `["a", "b"]`, which does not contain `"zzz"`. -/
theorem phonemius_seed_fallback_counterexample :
    (PhonemiusBuildPlaylist pickHead noRecent cons0 (some 4)
      [trackA, trackB] 10 (some "zzz")).map Prod.fst = some ["a", "b"] ∧
    ([trackA, trackB].any fun t => t.id == "zzz") = false ∧
    ¬ "zzz" ∈ (["a", "b"] : List String) := by
  refine ⟨by with_unfolding_all decide, by decide, by decide⟩

/-- Claim C4 (amended): `MerlinGreedySelector.build_playlist` is fatal
when the supplied seed is absent from the library (returns `none`,
modelling `SeedNotFound`); but `ArchwizardPhonemius._select_seed_track`
does not propagate that failure: with an absent explicit seed it
behaves exactly as if no seed had been supplied, falling back to the
random choice over duration-eligible tracks. -/
theorem seed_not_found_behavior :
    (∀ (recent : String → Bool) (c : SelectionConstraints)
      (library : List Track) (seed : String) (tmin : ℤ) (maxT : ℕ),
      (∀ t ∈ library, (t.id == seed) = false) →
      MerlinBuildPlaylist recent c library seed tmin maxT = none) ∧
    (∀ (choose : List Track → Option Track) (c : SelectionConstraints)
      (library : List Track) (sid : String),
      (∀ t ∈ library, (t.id == sid) = false) →
      selectSeedTrack choose c library (some sid) =
        selectSeedTrack choose c library none) := by
  constructor
  · intro recent c library seed tmin maxT h
    unfold MerlinBuildPlaylist MerlinBuildPlaylistFuel
    rw [dictLookup_eq_none h]
  · intro choose c library sid h
    have hany : (library.any fun t => t.id == sid) = false := by
      rw [List.any_eq_false]
      intro t ht
      simp [h t ht]
    unfold selectSeedTrack
    split
    · rfl
    · show (if (library.any fun t => t.id == sid) = true then some sid
        else randomSeedFallback choose c library) =
        randomSeedFallback choose c library
      rw [hany]
      simp

/-- Witness for `seed_not_found_behavior` at a concrete input. -/
theorem seed_not_found_behavior_witness :
    (∀ t ∈ [trackA, trackB], (t.id == "zzz") = false) ∧
    MerlinBuildPlaylist noRecent cons0 [trackA, trackB] "zzz" 10 90 = none :=
  ⟨by decide,
    seed_not_found_behavior.1 noRecent cons0 [trackA, trackB] "zzz" 10 90
      (by decide)⟩

/-- Claim C9: Balanced (Merlin) playlist generation is deterministic.
Two successive builds from the same `(usage oracle, constraints,
library order, seed, target, max)` inputs return identical playlists,
and with an explicit seed that is present in the library the
orchestrated call never consults the random source: any two choice
functions give identical results. -/
theorem balanced_determinism :
    (∀ (recent : String → Bool) (c : SelectionConstraints)
      (library : List Track) (seed : String) (tmin : ℤ) (maxT : ℕ),
      MerlinBuildPlaylist recent c library seed tmin maxT =
        MerlinBuildPlaylist recent c library seed tmin maxT) ∧
    (∀ (choose₁ choose₂ : List Track → Option Track)
      (recent : String → Bool) (c : SelectionConstraints) (cfg : Option ℚ)
      (library : List Track) (tmin : ℤ) (sid : String),
      (library.any fun t => t.id == sid) = true →
      PhonemiusBuildPlaylist choose₁ recent c cfg library tmin (some sid) =
        PhonemiusBuildPlaylist choose₂ recent c cfg library tmin (some sid)) := by
  constructor
  · intro recent c library seed tmin maxT
    rfl
  · intro choose₁ choose₂ recent c cfg library tmin sid h
    have hne : library.isEmpty = false := by
      obtain ⟨t, ht, _⟩ := List.any_eq_true.1 h
      cases library
      · simp at ht
      · rfl
    have hsel : ∀ ch : List Track → Option Track,
        selectSeedTrack ch c library (some sid) = some sid := by
      intro ch
      unfold selectSeedTrack
      rw [hne]
      show (if (library.any fun t => t.id == sid) = true then some sid
        else randomSeedFallback ch c library) = some sid
      rw [h]
      simp
    unfold PhonemiusBuildPlaylist
    rw [hsel choose₁, hsel choose₂]

/-- Witness for `balanced_determinism` at a concrete input. -/
theorem balanced_determinism_witness :
    ([trackA, trackB].any fun t => t.id == "a") = true ∧
    PhonemiusBuildPlaylist pickHead noRecent cons0 (some 4)
      [trackA, trackB] 10 (some "a") =
    PhonemiusBuildPlaylist pickLast noRecent cons0 (some 4)
      [trackA, trackB] 10 (some "a") :=
  ⟨by decide,
    balanced_determinism.2 pickHead pickLast noRecent cons0 (some 4)
      [trackA, trackB] 10 "a" (by decide)⟩

/-- Claim C10: the greedy build loop terminates.  Every successful
`MerlinGreedySelector.build_playlist` run produces a duplicate-free
playlist of length at most `max_tracks` and at most the library size
(each iteration consumes a fresh library id), and the loop is already
stable at fuel `max_tracks`: granting the loop any additional fuel
yields the same playlist, i.e. it performs at most
`min(max_tracks, |library|)` iterations. -/
theorem merlin_terminates_bounded (recent : String → Bool)
    (c : SelectionConstraints) (library : List Track) (seed : String)
    (tmin : ℤ) (maxT : ℕ) (l : List String) (hmax : 1 ≤ maxT)
    (h : MerlinBuildPlaylist recent c library seed tmin maxT = some l) :
    l.Nodup ∧ l.length ≤ maxT ∧ l.length ≤ library.length ∧
    ∀ extra, MerlinBuildPlaylistFuel (maxT + extra) recent c library seed
      tmin maxT = some l := by
  unfold MerlinBuildPlaylist MerlinBuildPlaylistFuel at h
  split at h
  · simp at h
  · rename_i seedTrack hd
    simp only [Option.some.injEq] at h
    have hseed := dictLookup_some hd
    have hnd : l.Nodup := by
      rw [← h]
      refine greedyLoop_nodup recent c library ((tmin * 60 : ℤ) : ℚ) maxT maxT
        [seed] [seed] (seedTrack.duration_seconds.getD 0) seedTrack
        (List.nodup_singleton _) ?_
      intro x hx
      rw [List.mem_singleton] at hx
      subst hx
      rw [List.elem_iff]
      exact List.mem_singleton.2 rfl
    have hlen : l.length ≤ maxT := by
      have := greedyLoop_length_le recent c library ((tmin * 60 : ℤ) : ℚ) maxT
        maxT [seed] [seed] (seedTrack.duration_seconds.getD 0) seedTrack
      rw [h] at this
      simpa [Nat.max_eq_right hmax] using this
    have hsub : l ⊆ library.map Track.id := by
      intro x hx
      rw [← h] at hx
      rcases greedyLoop_mem recent c library ((tmin * 60 : ℤ) : ℚ) maxT maxT
          [seed] [seed] (seedTrack.duration_seconds.getD 0) seedTrack x hx with
        hpl | ⟨t, ht, hid, _⟩
      · rw [List.mem_singleton] at hpl
        subst hpl
        exact List.mem_map.2 ⟨seedTrack, hseed.1, hseed.2⟩
      · exact List.mem_map.2 ⟨t, ht, hid⟩
    have hliblen : l.length ≤ library.length := by
      have := (List.subperm_of_subset hnd hsub).length_le
      rwa [List.length_map] at this
    refine ⟨hnd, hlen, hliblen, ?_⟩
    intro extra
    unfold MerlinBuildPlaylistFuel
    simp only [hd]
    rw [greedyLoop_fuel_stable recent c library ((tmin * 60 : ℤ) : ℚ) maxT
      (maxT + extra) maxT [seed] [seed] (seedTrack.duration_seconds.getD 0)
      seedTrack (by simp only [List.length_singleton]; omega)
      (by simp only [List.length_singleton]; omega)]
    rw [h]

/-- Witness for `merlin_terminates_bounded` at a concrete input. -/
theorem merlin_terminates_bounded_witness :
    1 ≤ 90 ∧
    MerlinBuildPlaylist noRecent cons0 [trackA, trackB] "a" 10 90
      = some ["a", "b"] ∧
    (["a", "b"] : List String).Nodup :=
  ⟨by omega, by with_unfolding_all decide,
    (merlin_terminates_bounded noRecent cons0 [trackA, trackB] "a" 10 90
      ["a", "b"] (by omega) (by with_unfolding_all decide)).1⟩

/-- Claim C6 counterexample: the claim as stated is false.  With
`crossfade_duration_seconds = 20` the planner emits transition edges
whose `mix_out_seconds` is 20, outside `[2, 8]`: no clamping happens. -/
theorem mix_out_unclamped_counterexample :
    ((planTransitions (some 20) ["a", "b"] [trackA, trackB]).map
      fun e => e.mix_out_seconds) = [20, 20] ∧ ¬ ((20 : ℚ) ≤ 8) := by
  refine ⟨by decide, by norm_num⟩

/-- Claim C6 (amended): every transition edge emitted by
`_plan_transitions` carries `mix_out_seconds` EQUAL to the configured
`crossfade_duration_seconds` (defaulting to 4 when absent), with no
clamping; consequently the emitted values lie in `[2, 8]` exactly when
the configured value does (which `Config` validation enforces for
loaded configs), not regardless of it. -/
theorem mix_out_eq_config (cfg : Option ℚ) (tids : List String)
    (library : List Track) (e : TransitionPlan)
    (h : e ∈ planTransitions cfg tids library) :
    e.mix_out_seconds = cfg.getD 4 ∧
    (2 ≤ cfg.getD 4 → cfg.getD 4 ≤ 8 →
      2 ≤ e.mix_out_seconds ∧ e.mix_out_seconds ≤ 8) := by
  unfold planTransitions at h
  obtain ⟨p, _, rfl⟩ := List.mem_map.1 h
  exact ⟨rfl, fun h2 h8 => ⟨h2, h8⟩⟩

/-- The first transition edge planned for `["a", "b"]` with the
default 4 s crossfade. -/
def plan0 : TransitionPlan :=
  { track_index := 0
    track_id := "a"
    entry_cue := "cue_in"
    hold_duration_bars := 16
    target_bpm := none
    exit_cue := "cue_out"
    mix_out_seconds := 4
    effect := "smart_crossfade"
    next_track_id := some "b" }

/-- Witness for `mix_out_eq_config` at a concrete input. -/
theorem mix_out_eq_config_witness :
    plan0 ∈ planTransitions (some 4) ["a", "b"] [trackA, trackB] ∧
    plan0.mix_out_seconds = (some (4 : ℚ)).getD 4 :=
  ⟨by decide,
    (mix_out_eq_config (some 4) ["a", "b"] [trackA, trackB] plan0
      (by decide)).1⟩

/-- The lookahead energy window of `compute_energy_score` (energy.py
lines 131-133): `estimate_track_energy(candidates[j])` for
`j in range(idx + 1, min(idx + energy_window_size, len(candidates)))`,
i.e. the slice `candidates[idx+1 : min(idx+W, len)]`. -/
def lookaheadEnergies (candidates : List Track) (idx W : ℕ) : List ℚ :=
  ((candidates.drop (idx + 1)).take
    (min (idx + W) candidates.length - (idx + 1))).map estimate_track_energy

/-- Population mean `sum(l) / len(l)` (energy.py line 137). -/
def popMean (l : List ℚ) : ℚ := l.sum / l.length

/-- Population variance `sum((e - mean)^2 for e in l) / len(l)`
(energy.py lines 138-140). -/
def popVariance (l : List ℚ) : ℚ :=
  ((l.map fun e => (e - popMean l) ^ 2).sum) / l.length

/-- The `variance_score` of `compute_energy_score` (energy.py lines
135-143): `sqrt` of the population variance over the lookahead window,
`0.0` when the window is empty. -/
noncomputable def varianceScore (candidates : List Track) (idx W : ℕ) : ℝ :=
  if (lookaheadEnergies candidates idx W).isEmpty then 0
  else Real.sqrt ((popVariance (lookaheadEnergies candidates idx W) : ℚ) : ℝ)

/-- The `combined_score` of `compute_energy_score` (energy.py lines
126-147) for the candidate at position `idx`:
`0.7 * distance + 0.3 * variance_score`. -/
noncomputable def combinedScore (current : Track) (candidates : List Track)
    (idx W : ℕ) : ℝ :=
  match candidates.get? idx with
  | none => 0
  | some cand =>
    0.7 * ((compute_energy_distance (estimate_track_energy current)
      (estimate_track_energy cand) : ℚ) : ℝ) +
    0.3 * varianceScore candidates idx W

/-- Modelled from the spec's words (§4.2 `lookahead_variance`), for
refinement comparison: population standard deviation of the estimated
energies of the first `k` items following the candidate (or all
remaining items if fewer), `0` if fewer than 2 such items. -/
noncomputable def specLookaheadStdDev (candidates : List Track)
    (idx k : ℕ) : ℝ :=
  if (((candidates.drop (idx + 1)).take k).map estimate_track_energy).length
      < 2 then 0
  else Real.sqrt ((popVariance
    (((candidates.drop (idx + 1)).take k).map estimate_track_energy) : ℚ) : ℝ)

lemma clamp01_eq_self {x : ℚ} (h0 : 0 ≤ x) (h1 : x ≤ 1) : clamp01 x = x := by
  unfold clamp01
  rw [min_eq_right h1, max_eq_right h0]

lemma popVariance_singleton (e : ℚ) : popVariance [e] = 0 := by
  norm_num [popVariance, popMean]

/-- A track whose only descriptor is an explicit `energy` field. -/
def energyTrack (i : String) (e : ℚ) : Track :=
  { emptyTrack with id := i, energy := some e }

/-- Candidate list with energies `[1/2, 1/5, 1/5, 4/5]`. -/
def demoCands : List Track :=
  [energyTrack "c0" (1/2), energyTrack "c1" (1/5),
   energyTrack "c2" (1/5), energyTrack "c3" (4/5)]

lemma estimate_energyTrack (i : String) {e : ℚ} (h0 : 0 ≤ e) (h1 : e ≤ 1) :
    estimate_track_energy (energyTrack i e) = e := by
  unfold estimate_track_energy energyTrack
  exact clamp01_eq_self h0 h1

lemma take_eq_take_of_min {α : Type} (l : List α) (m n : ℕ)
    (h : min m l.length = min n l.length) : l.take m = l.take n := by
  induction l generalizing m n with
  | nil => simp
  | cons a t ih =>
    cases m with
    | zero =>
      cases n with
      | zero => rfl
      | succ n =>
        simp only [List.length_cons, Nat.zero_min] at h
        omega
    | succ m =>
      cases n with
      | zero =>
        simp only [List.length_cons, Nat.min_zero] at h
        omega
      | succ n =>
        simp only [List.take_succ_cons]
        rw [ih m n]
        simp only [List.length_cons] at h
        omega

lemma lookahead_window_eq (candidates : List Track) (idx W : ℕ) :
    lookaheadEnergies candidates idx W =
      ((candidates.drop (idx + 1)).take (W - 1)).map estimate_track_energy := by
  unfold lookaheadEnergies
  congr 1
  apply take_eq_take_of_min
  rw [List.length_drop]
  omega

/-- Claim C7 counterexample: the claim as stated is false.  With
window size `W = 3` and candidates of energies `[1/2, 1/5, 1/5, 4/5]`,
the code's lookahead term for the candidate at index 0 is the standard
deviation over only TWO following items (`range(idx+1, idx+W)` spans
`W − 1` indices), giving `0`, whereas the population standard
deviation over the first `W = 3` following items is `sqrt(2/25) ≠ 0`. -/
theorem energy_window_counterexample :
    varianceScore demoCands 0 3 = 0 ∧ specLookaheadStdDev demoCands 0 3 ≠ 0 := by
  have he1 : estimate_track_energy (energyTrack "c1" (1/5)) = 1/5 :=
    estimate_energyTrack _ (by norm_num) (by norm_num)
  have he2 : estimate_track_energy (energyTrack "c2" (1/5)) = 1/5 :=
    estimate_energyTrack _ (by norm_num) (by norm_num)
  have he3 : estimate_track_energy (energyTrack "c3" (4/5)) = 4/5 :=
    estimate_energyTrack _ (by norm_num) (by norm_num)
  constructor
  · have hwin : lookaheadEnergies demoCands 0 3 =
        [estimate_track_energy (energyTrack "c1" (1/5)),
         estimate_track_energy (energyTrack "c2" (1/5))] := rfl
    unfold varianceScore
    rw [hwin, he1, he2]
    rw [if_neg (by simp)]
    rw [show popVariance [(1/5 : ℚ), 1/5] = 0 from by
      norm_num [popVariance, popMean]]
    simp
  · have hwin : ((demoCands.drop (0 + 1)).take 3).map estimate_track_energy =
        [estimate_track_energy (energyTrack "c1" (1/5)),
         estimate_track_energy (energyTrack "c2" (1/5)),
         estimate_track_energy (energyTrack "c3" (4/5))] := rfl
    unfold specLookaheadStdDev
    rw [hwin, he1, he2, he3]
    rw [if_neg (by norm_num)]
    rw [show popVariance [(1/5 : ℚ), 1/5, 4/5] = 2/25 from by
      norm_num [popVariance, popMean]]
    have hpos : (0 : ℝ) < ((2/25 : ℚ) : ℝ) := by norm_num
    exact ne_of_gt (Real.sqrt_pos.mpr hpos)

/-- Claim C7 (amended): for every candidate at index `idx` and window
size `W`, the code's lookahead variance term equals the population
standard deviation of the estimated energies of the first `W − 1`
items following the candidate (or all remaining items if fewer), is
`0` when fewer than 2 such items exist, and the combined score equals
`0.7 ·` energy distance from the current track `+ 0.3 ·` that standard
deviation. -/
theorem energy_window_spec :
    (∀ (candidates : List Track) (idx W : ℕ),
      lookaheadEnergies candidates idx W =
        ((candidates.drop (idx + 1)).take (W - 1)).map
          estimate_track_energy) ∧
    (∀ (candidates : List Track) (idx W : ℕ),
      varianceScore candidates idx W =
        specLookaheadStdDev candidates idx (W - 1)) ∧
    (∀ (current : Track) (candidates : List Track) (idx W : ℕ)
      (cand : Track), candidates.get? idx = some cand →
      combinedScore current candidates idx W =
        0.7 * ((compute_energy_distance (estimate_track_energy current)
          (estimate_track_energy cand) : ℚ) : ℝ) +
        0.3 * varianceScore candidates idx W) ∧
    (∀ (candidates : List Track) (idx W : ℕ),
      (lookaheadEnergies candidates idx W).length < 2 →
      varianceScore candidates idx W = 0) := by
  refine ⟨lookahead_window_eq, ?_, ?_, ?_⟩
  · intro candidates idx W
    unfold varianceScore specLookaheadStdDev
    rw [lookahead_window_eq]
    generalize ((candidates.drop (idx + 1)).take (W - 1)).map
      estimate_track_energy = w
    cases w with
    | nil => simp
    | cons e rest =>
      cases rest with
      | nil => simp [popVariance_singleton]
      | cons e2 rest2 =>
        rw [if_neg (by simp),
          if_neg (by simp only [List.length_cons]; omega)]
  · intro current candidates idx W cand h
    unfold combinedScore
    simp only [h]
  · intro candidates idx W h
    rcases hl : lookaheadEnergies candidates idx W with _ | ⟨e, rest⟩
    · unfold varianceScore
      rw [hl]
      simp
    · rcases rest with _ | ⟨e2, rest2⟩
      · unfold varianceScore
        rw [hl]
        simp [popVariance_singleton]
      · rw [hl] at h
        simp only [List.length_cons] at h
        omega

/-- Witness for `energy_window_spec` at a concrete input. -/
theorem energy_window_spec_witness :
    demoCands.get? 0 = some (energyTrack "c0" (1/2)) ∧
    combinedScore (energyTrack "cur" (1/2)) demoCands 0 3 =
      0.7 * ((compute_energy_distance
        (estimate_track_energy (energyTrack "cur" (1/2)))
        (estimate_track_energy (energyTrack "c0" (1/2))) : ℚ) : ℝ) +
      0.3 * varianceScore demoCands 0 3 :=
  ⟨rfl, energy_window_spec.2.2.1 (energyTrack "cur" (1/2)) demoCands 0 3
    (energyTrack "c0" (1/2)) rfl⟩
